import Mathlib

/-!
Shallow embedding of the drift-aware Flask inference service in `app.py`
(MLOps-Titanic-Survival).  The `/predict` handler is modelled as a pure
function from form data, an abstract scaler, an abstract drift detector and
an abstract model to a response plus updated Prometheus counters.  External
library behaviour that the repository only calls (alibi-detect's `KSDrift`,
pandas/sklearn failure modes at startup) is modelled from the spec and marked
as such in doc comments.
-/

namespace TitanicApp

/-- Ordered list of features expected by the model (`FEATURE_NAMES` in app.py). -/
def FEATURE_NAMES : List String :=
  ["Age", "Fare", "Pclass", "Sex", "Embarked", "Familysize", "Isalone",
   "HasCabin", "Title", "Pclass_Fare", "Age_Fare"]

/-- `FEATURE_LABELS.get(fname, (fname, None))` from app.py: human-friendly label
and optional hint for the drift table. -/
def featureLabel (fname : String) : String × Option String :=
  if fname = "Age" then ("Age of Passenger", none)
  else if fname = "Fare" then ("Ticket Fare", some "Price paid for the ticket")
  else if fname = "Pclass" then ("Passenger Class", some "1 = First, 2 = Second, 3 = Third")
  else if fname = "Sex" then ("Sex", some "0 = Male, 1 = Female")
  else if fname = "Embarked" then
    ("Port of Embarkation", some "0 = Cherbourg, 1 = Queenstown, 2 = Southampton")
  else if fname = "Familysize" then
    ("Family Size", some "Siblings/Spouses + Parents/Children + 1")
  else if fname = "Isalone" then ("Is Alone", some "1 = Yes, 0 = No")
  else if fname = "HasCabin" then ("Has Cabin", some "1 = Yes, 0 = No")
  else if fname = "Title" then ("Passenger Title", some "Mr / Miss / Mrs / Master / Rare")
  else if fname = "Pclass_Fare" then
    ("Passenger Class × Fare", some "Interaction: class multiplied by fare")
  else if fname = "Age_Fare" then ("Age × Fare", some "Interaction: age multiplied by fare")
  else (fname, none)

/-- Numeric value of a digit run (most significant first). -/
def digitsVal (l : List Char) : Nat :=
  l.foldl (fun a c => 10 * a + (c.toNat - 48)) 0

/-- Strip an optional leading sign; `true` means negative. -/
def splitSign : List Char → Bool × List Char
  | '-' :: rest => (true, rest)
  | '+' :: rest => (false, rest)
  | l => (false, l)

/-- Python `int(s)` on a plain decimal string: optional sign followed by a
nonempty digit run; a string containing a decimal point (or anything else)
raises `ValueError`, modelled as `none`.  (Whitespace padding and underscore
separators, which CPython also tolerates, are outside the modelled input
language of form fields.) -/
def pyInt (s : String) : Option Int :=
  let p := splitSign s.data
  if !p.2.isEmpty && p.2.all Char.isDigit then
    some (if p.1 then -(digitsVal p.2 : Int) else (digitsVal p.2 : Int))
  else none

/-- Parse a Python float literal of the decimal form `[sign] digits [. digits]`
into sign, integer-part digits and fractional-part digits.  Fails exactly when
`float(s)` raises on such strings (empty, a lone dot, stray characters). -/
def parseDec (s : String) : Option (Bool × List Char × List Char) :=
  let p := splitSign s.data
  let ip := p.2.takeWhile (fun c => c ≠ '.')
  let rest := p.2.dropWhile (fun c => c ≠ '.')
  match rest with
  | [] =>
    if !ip.isEmpty && ip.all Char.isDigit then some (p.1, ip, []) else none
  | '.' :: fp =>
    if ip.all Char.isDigit && fp.all Char.isDigit && !(ip.isEmpty && fp.isEmpty) then
      some (p.1, ip, fp)
    else none
  | _ => none

/-- Python `float(s)` on a decimal literal, as an exact rational. -/
def pyFloat (s : String) : Option Rat :=
  (parseDec s).map (fun t =>
    let mag : Rat := (digitsVal t.2.1 : Rat) + (digitsVal t.2.2 : Rat) / (10 ^ t.2.2.length : Rat)
    if t.1 then -mag else mag)

/-- Python `int(float(s))`: the decimal value truncated toward zero, which for
an exact decimal literal `[sign] ip [. fp]` is the signed integer part
(`-0.9 → 0`, `120.9 → 120`). -/
def pyIntFloat (s : String) : Option Int :=
  (parseDec s).map (fun t =>
    if t.1 then -(digitsVal t.2.1 : Int) else (digitsVal t.2.1 : Int))

/-- Raw form data for `/predict`: the nine user-editable fields, as strings. -/
structure FormData where
  Age : String
  Fare : String
  Pclass : String
  Sex : String
  Embarked : String
  Familysize : String
  Isalone : String
  HasCabin : String
  Title : String

/-- The coerced, bounds-checked fields. -/
structure Validated where
  Age : Int
  Fare : Int
  Pclass : Int
  Sex : Int
  Embarked : Int
  Familysize : Int
  Isalone : Int
  HasCabin : Int
  Title : Int
deriving DecidableEq, Repr

/-- The validate-and-coerce block of `predict()` (app.py lines 208-230), with
the same field order and the same `ValueError` messages; a coercion failure
carries the Python conversion error. -/
def validate (d : FormData) : Except String Validated :=
  match pyIntFloat d.Age with
  | none => .error ("could not convert string to float: " ++ d.Age)
  | some age =>
    if !(0 ≤ age && age ≤ 120) then .error "Age out of valid range (0–120)." else
    match pyIntFloat d.Fare with
    | none => .error ("could not convert string to float: " ++ d.Fare)
    | some fare =>
      if !(0 ≤ fare && fare ≤ 10000) then .error "Fare out of valid range (0–10000)." else
      match pyInt d.Pclass with
      | none => .error ("invalid literal for int with base 10: " ++ d.Pclass)
      | some pclass =>
        if !(pclass = 1 || pclass = 2 || pclass = 3) then
          .error "Pclass must be 1, 2, or 3." else
        match pyInt d.Sex with
        | none => .error ("invalid literal for int with base 10: " ++ d.Sex)
        | some sex =>
          match pyInt d.Embarked with
          | none => .error ("invalid literal for int with base 10: " ++ d.Embarked)
          | some embarked =>
            match pyIntFloat d.Familysize with
            | none => .error ("could not convert string to float: " ++ d.Familysize)
            | some familysize =>
              if !(0 ≤ familysize) then .error "Family Size cannot be negative." else
              match pyInt d.Isalone with
              | none => .error ("invalid literal for int with base 10: " ++ d.Isalone)
              | some isalone =>
                match pyInt d.HasCabin with
                | none => .error ("invalid literal for int with base 10: " ++ d.HasCabin)
                | some hascabin =>
                  match pyInt d.Title with
                  | none => .error ("invalid literal for int with base 10: " ++ d.Title)
                  | some title =>
                    .ok ⟨age, fare, pclass, sex, embarked, familysize, isalone, hascabin, title⟩

/-- The single-row feature frame (app.py lines 232-240): the nine validated
fields plus the two server-side interaction features, in `FEATURE_NAMES` order. -/
def buildFeatures (v : Validated) : List Int :=
  [v.Age, v.Fare, v.Pclass, v.Sex, v.Embarked, v.Familysize, v.Isalone,
   v.HasCabin, v.Title, v.Pclass * v.Fare, v.Age * v.Fare]

/-- The fixed significance threshold `alpha = 0.05` of app.py (line 255), and
the `p_val=0.05` passed to the detector (line 166). -/
def alpha : Rat := 1 / 20

/-- The `data` dictionary of `ksd.predict(...)` as consumed by app.py lines
250-252: an optional aggregate `is_drift` integer and an optional per-feature
p-value vector. -/
structure DriftOut where
  is_drift : Option Int
  p_val : Option (List Rat)

/-- Modelled from the spec: the `KSDrift` detector itself lives in the external
alibi-detect package, not under src/.  Per §4.2, given the per-feature p-value
vector `pvs` the detector's aggregate `is_drift` is 1 iff at least one
feature's p-value is strictly below α, with no multiple-comparisons
correction (§9); the p-value computation itself is the abstract K-S test,
taken here as an arbitrary function of the scaled sample. -/
def ksdPredict (kstest : List Rat → List Rat) (x : List Rat) : DriftOut :=
  let pvs := kstest x
  { is_drift := some (if pvs.any (fun p => p < alpha) then 1 else 0)
    p_val := some pvs }

/-- One row of the drift table sent to the template (app.py lines 270-278).
The displayed p-value string is kept as the exact rational it rounds. -/
structure DriftRow where
  feature : String
  feature_label : String
  hint : Option String
  pval : Rat
  flagged : Bool

/-- The per-feature drift rows: `zip(FEATURE_NAMES, pv_list)` with
`flagged = pv < alpha` (app.py lines 267-278). -/
def buildRows (pvs : List Rat) : List DriftRow :=
  (FEATURE_NAMES.zip pvs).map (fun fp =>
    { feature := fp.1
      feature_label := (featureLabel fp.1).1
      hint := (featureLabel fp.1).2
      pval := fp.2
      flagged := fp.2 < alpha })

/-- The `flagged_features` list (app.py lines 279-280): for each flagged row,
`label if label else fname` — Python truthiness on the label string. -/
def flaggedFeatures (pvs : List Rat) : List String :=
  (FEATURE_NAMES.zip pvs).filterMap (fun fp =>
    if fp.2 < alpha then
      some (if (featureLabel fp.1).1 ≠ "" then (featureLabel fp.1).1 else fp.1)
    else none)

/-- The drift payload sent to the template (app.py lines 302-307):
`is_drift = bool(is_drift == 1)` where a missing detector flag (`None`)
compares unequal to 1. -/
structure DriftPayload where
  is_drift : Bool
  alphaUsed : Rat
  rows : List DriftRow
  flagged_features : List String

/-- Assemble the drift payload from the detector output, exactly as app.py
lines 259-307: no p-values means an empty table, and the aggregate badge is
`is_drift == 1`. -/
def renderDrift (out : DriftOut) : DriftPayload :=
  { is_drift := out.is_drift == some 1
    alphaUsed := alpha
    rows := match out.p_val with
      | none => []
      | some pvs => buildRows pvs
    flagged_features := match out.p_val with
      | none => []
      | some pvs => flaggedFeatures pvs }

/-- The opaque trained model: `predict` is required and may raise (modelled as
`Except`); `predict_proba` is an optional attribute returning the two class
probabilities `[p0, p1]` and may itself raise. -/
structure Model where
  predict : List Int → Except String Int
  predict_proba : Option (List Int → Except String (Rat × Rat))

/-- The two process-lifetime Prometheus counters of app.py lines 71-74. -/
structure Counters where
  prediction_count : Nat
  drift_count : Nat
deriving DecidableEq, Repr

/-- Python `f"{x:.2f}"` on a nonnegative value, with the exact decimal rounded
to the nearest hundredth (the binary-float representation detail is abstracted
to exact arithmetic). -/
def fmt2 (x : Rat) : String :=
  let n : Int := ⌊x * 100 + 1 / 2⌋
  let frac := (n % 100).toNat
  toString (n / 100) ++ "." ++ (if frac < 10 then "0" ++ toString frac else toString frac)

/-- A rendered `/predict` response: either the success template (status 200)
with prediction label, optional probability percentage string and the drift
payload, or the error template with status 400 and no prediction or drift
payload. -/
inductive PredictResponse where
  | ok (prediction_label : String) (prediction_prob : Option String) (drift : DriftPayload)
  | err (error_text : String)

/-- The `/predict` handler (app.py lines 185-371) as a pure function.
`scale` is the fitted `scaler.transform` on a single row, `ksd` the drift
detector's `predict` composed down to its `data` dictionary, `model` the
loaded classifier, `c` the counters before the request.  Every exception
raised inside the `try` block (validation `ValueError`s and `model.predict`
failures) lands in the single `except` clause, which renders the error
template with `f"Error: {e}"` and status 400; counter increments performed
before the raise are kept, since Prometheus counters are never rolled back. -/
def predictRoute (scale : List Int → List Rat) (ksd : List Rat → DriftOut)
    (model : Model) (d : FormData) (c : Counters) : PredictResponse × Counters :=
  match validate d with
  | .error e => (.err ("Error: " ++ e), c)
  | .ok v =>
    let features := buildFeatures v
    let out := ksd (scale features)
    let c1 := if out.is_drift == some 1 then
        { c with drift_count := c.drift_count + 1 } else c
    match model.predict features with
    | .error e => (.err ("Error: " ++ e), c1)
    | .ok yhat =>
      let c2 := { c1 with prediction_count := c1.prediction_count + 1 }
      let label := if yhat = 1 then "SURVIVED" else "DID NOT SURVIVE"
      let prob : Option String :=
        match model.predict_proba with
        | none => none
        | some f =>
          match f features with
          | .error _ => none
          | .ok pq => some (fmt2 (pq.2 * 100))
      (.ok label prob (renderDrift out), c2)

/-- Modelled from the spec: `fit_scaler_on_ref_data` (app.py lines 129-156)
builds the reference table from the feature store; the fail-fast behaviour on
a bad store lives in external pandas/sklearn code (empty-frame column
selection raises `KeyError`; fitting on a missing value raises), which §4.1
specifies as: fail when the store returns zero entities or when any entity's
feature dictionary is missing a required `FEATURE_NAMES` column.  The store
is `ids` (from `get_all_entity_ids`) together with the per-entity feature
dictionaries `feat` (from `get_batch_features`); the returned table is the
raw reference matrix in schema order (the standardisation arithmetic is not
needed by any claim). -/
def fit_scaler_on_ref_data (ids : List String) (feat : String → String → Option Rat) :
    Except String (List (List Rat)) :=
  if ids.isEmpty then
    .error "None of the FEATURE_NAMES columns are in the empty reference frame"
  else if ids.all (fun i => FEATURE_NAMES.all (fun n => (feat i n).isSome)) then
    .ok (ids.map (fun i => FEATURE_NAMES.map (fun n => (feat i n).getD 0)))
  else .error "reference frame contains missing values; scaler fit rejects NaN"

/-- Startup sequencing of app.py lines 159-166: the baseline is built (and the
detector constructed from it) at import time; the request handler only exists
after a successful build.  A startup failure propagates and no handler is
produced. -/
def startService (ids : List String) (feat : String → String → Option Rat)
    (kstest : List Rat → List Rat) (scale : List Int → List Rat) (model : Model) :
    Except String (FormData → Counters → PredictResponse × Counters) :=
  match fit_scaler_on_ref_data ids feat with
  | .error e => .error e
  | .ok _ => .ok (fun d c => predictRoute scale (ksdPredict kstest) model d c)

/-- The spec's worked scenario: Age=29, Fare=72, Pclass=1, Sex=0, Embarked=0,
Familysize=1, Isalone=1, HasCabin=1, Title=0, as submitted form strings. -/
def egForm : FormData := ⟨"29", "72", "1", "0", "0", "1", "1", "1", "0"⟩

/-- The coerced fields of `egForm`. -/
def egValid : Validated := ⟨29, 72, 1, 0, 0, 1, 1, 1, 0⟩

/-- `egForm` with the fractional Age string "120.9". -/
def formFracAge : FormData := ⟨"120.9", "72", "1", "0", "0", "1", "1", "1", "0"⟩

/-- `egForm` with the decimal-pointed Pclass string "1.0". -/
def formDotPclass : FormData := ⟨"29", "72", "1.0", "0", "0", "1", "1", "1", "0"⟩

/-- `egForm` with the out-of-range Fare 50000. -/
def formBadFare : FormData := ⟨"29", "50000", "1", "0", "0", "1", "1", "1", "0"⟩

/-- A concrete stand-in for the fitted scaler transform. -/
def idScale : List Int → List Rat := fun xs => xs.map (fun n => (n : Rat))

/-- A concrete per-feature p-value vector: ten non-drifting features and one
(the last) with p-value 0 < α. -/
def pv11 : List Rat := [1, 1, 1, 1, 1, 1, 1, 1, 1, 1, 0]

/-- A concrete K-S p-value computation returning `pv11` for every sample. -/
def kstestConst : List Rat → List Rat := fun _ => pv11

/-- A concrete `predict_proba` returning class probabilities (0.36, 0.64). -/
def probaFn : List Int → Except String (Rat × Rat) := fun _ => .ok (9 / 25, 16 / 25)

/-- A concrete model that classifies 1 and supports `predict_proba`. -/
def egModel : Model := { predict := fun _ => .ok 1, predict_proba := some probaFn }

/-- A concrete model whose `predict` raises. -/
def failModel : Model := { predict := fun _ => .error "boom", predict_proba := none }

/-- A concrete detector output with no flag and no p-values. -/
def ksdNone : List Rat → DriftOut := fun _ => { is_drift := none, p_val := none }

/-- A concrete detector output reporting drift. -/
def ksdOne : List Rat → DriftOut := fun _ => { is_drift := some 1, p_val := some pv11 }

/-- An empty feature-store lookup. -/
def feat0 : String → String → Option Rat := fun _ _ => none

/-- A feature-store lookup with every column present. -/
def featGood : String → String → Option Rat := fun _ _ => some 1

lemma any_zip_snd {α β : Type} (q : β → Bool) :
    ∀ (names : List α) (l : List β), l.length ≤ names.length →
      ((names.zip l).any (fun x => q x.2) = l.any q)
  | _, [], _ => by simp
  | [], _ :: _, h => by simp at h
  | _ :: as, b :: bs, h => by
    simp only [List.zip_cons_cons, List.any_cons]
    rw [any_zip_snd q as bs (by simpa using h)]

lemma any_list_map {α β : Type} (f : α → β) (p : β → Bool) :
    ∀ l : List α, (l.map f).any p = l.any (fun a => p (f a))
  | [] => rfl
  | _ :: xs => by simp only [List.map_cons, List.any_cons, any_list_map f p xs]

lemma predictRoute_validation_error (scale : List Int → List Rat) (ksd : List Rat → DriftOut)
    (model : Model) (d : FormData) (c : Counters) (e : String) (h : validate d = .error e) :
    predictRoute scale ksd model d c = (.err ("Error: " ++ e), c) := by
  simp [predictRoute, h]

lemma predictRoute_drift_count (scale : List Int → List Rat) (ksd : List Rat → DriftOut)
    (model : Model) (d : FormData) (c : Counters) (v : Validated) (h : validate d = .ok v) :
    (predictRoute scale ksd model d c).2.drift_count =
      c.drift_count +
        (if (renderDrift (ksd (scale (buildFeatures v)))).is_drift then 1 else 0) := by
  simp only [predictRoute, h, renderDrift]
  cases hm : model.predict (buildFeatures v) <;> simp [hm] <;> split <;> simp

lemma predictRoute_inference_error (scale : List Int → List Rat) (ksd : List Rat → DriftOut)
    (model : Model) (d : FormData) (c : Counters) (v : Validated) (e : String)
    (h : validate d = .ok v) (hm : model.predict (buildFeatures v) = .error e) :
    predictRoute scale ksd model d c =
      (.err ("Error: " ++ e),
       if (ksd (scale (buildFeatures v))).is_drift == some 1 then
         { c with drift_count := c.drift_count + 1 } else c) := by
  simp [predictRoute, h, hm]

lemma predictRoute_ok (scale : List Int → List Rat) (ksd : List Rat → DriftOut)
    (model : Model) (d : FormData) (c : Counters) (v : Validated) (y : Int)
    (h : validate d = .ok v) (hm : model.predict (buildFeatures v) = .ok y) :
    predictRoute scale ksd model d c =
      (.ok (if y = 1 then "SURVIVED" else "DID NOT SURVIVE")
        (match model.predict_proba with
         | none => none
         | some f => match f (buildFeatures v) with
           | .error _ => none
           | .ok pq => some (fmt2 (pq.2 * 100)))
        (renderDrift (ksd (scale (buildFeatures v)))),
       { prediction_count :=
           (if (ksd (scale (buildFeatures v))).is_drift == some 1 then c else c).prediction_count + 1
         drift_count := c.drift_count +
           (if (ksd (scale (buildFeatures v))).is_drift == some 1 then 1 else 0) }) := by
  simp only [predictRoute, h, hm]
  cases hd : (ksd (scale (buildFeatures v))).is_drift == some 1 <;> simp [hd]

lemma renderDrift_ksdPredict_is_drift (kstest : List Rat → List Rat) (x : List Rat) :
    (renderDrift (ksdPredict kstest x)).is_drift = (kstest x).any (fun p => p < alpha) := by
  simp only [renderDrift, ksdPredict]
  split <;> simp_all

lemma buildRows_any_flagged (pvs : List Rat) (hlen : pvs.length ≤ FEATURE_NAMES.length) :
    (buildRows pvs).any (fun r => r.flagged) = pvs.any (fun p => p < alpha) := by
  rw [buildRows, any_list_map]
  exact any_zip_snd (fun p => decide (p < alpha)) FEATURE_NAMES pvs hlen

lemma validate_ok_iff (d : FormData) :
    (∃ v, validate d = .ok v) ↔
      ((match pyIntFloat d.Age with | some a => 0 ≤ a ∧ a ≤ 120 | none => False) ∧
       (match pyIntFloat d.Fare with | some f => 0 ≤ f ∧ f ≤ 10000 | none => False) ∧
       (match pyInt d.Pclass with | some p => p = 1 ∨ p = 2 ∨ p = 3 | none => False) ∧
       (pyInt d.Sex).isSome ∧
       (pyInt d.Embarked).isSome ∧
       (match pyIntFloat d.Familysize with | some m => 0 ≤ m | none => False) ∧
       (pyInt d.Isalone).isSome ∧
       (pyInt d.HasCabin).isSome ∧
       (pyInt d.Title).isSome) := by
  unfold validate
  repeat' split
  all_goals simp_all
  all_goals omega

/-- C1: for every valid `/predict` request whose drift detector returns a
per-feature p-value vector (one per schema feature), the `is_drift` flag in
the rendered drift payload is true iff at least one feature's p-value is
strictly below α = 0.05, and equivalently iff at least one row of the drift
table is flagged. -/
theorem drift_flag_iff_pvalue_below_alpha
    (kstest : List Rat → List Rat) (scale : List Int → List Rat) (model : Model)
    (d : FormData) (c : Counters) (v : Validated) (y : Int)
    (h1 : validate d = .ok v)
    (h2 : (kstest (scale (buildFeatures v))).length = FEATURE_NAMES.length)
    (h3 : model.predict (buildFeatures v) = .ok y) :
    ∃ lbl pr pl, (predictRoute scale (ksdPredict kstest) model d c).1 = .ok lbl pr pl ∧
      (pl.is_drift = true ↔ ∃ p ∈ kstest (scale (buildFeatures v)), p < alpha) ∧
      (pl.is_drift = true ↔ ∃ r ∈ pl.rows, r.flagged = true) := by
  rw [predictRoute_ok scale (ksdPredict kstest) model d c v y h1 h3]
  refine ⟨_, _, _, rfl, ?_, ?_⟩
  · rw [renderDrift_ksdPredict_is_drift]
    simp [List.any_eq_true]
  · rw [renderDrift_ksdPredict_is_drift]
    have hrows : (renderDrift (ksdPredict kstest (scale (buildFeatures v)))).rows =
        buildRows (kstest (scale (buildFeatures v))) := by
      simp [renderDrift, ksdPredict]
    rw [hrows, ← buildRows_any_flagged _ (le_of_eq h2)]
    simp [List.any_eq_true]

/-- C1 witness: the theorem applied to the spec scenario form, a constant
p-value vector with one drifting feature, and a model that classifies 1. -/
theorem drift_flag_iff_pvalue_below_alpha_witness :
    validate egForm = .ok egValid ∧
    (kstestConst (idScale (buildFeatures egValid))).length = FEATURE_NAMES.length ∧
    egModel.predict (buildFeatures egValid) = .ok 1 ∧
    (∃ lbl pr pl,
      (predictRoute idScale (ksdPredict kstestConst) egModel egForm ⟨0, 0⟩).1 = .ok lbl pr pl ∧
      (pl.is_drift = true ↔ ∃ p ∈ kstestConst (idScale (buildFeatures egValid)), p < alpha) ∧
      (pl.is_drift = true ↔ ∃ r ∈ pl.rows, r.flagged = true)) :=
  ⟨rfl, rfl, rfl,
    drift_flag_iff_pvalue_below_alpha kstestConst idScale egModel egForm ⟨0, 0⟩
      egValid 1 rfl rfl rfl⟩

/-- C2: on every `/predict` request the drift counter grows by exactly 1 when
the drift report's aggregate `is_drift` is true and by exactly 0 otherwise; a
request rejected by validation (which produces no report) leaves it unchanged. -/
theorem drift_counter_iff_report_is_drift (scale : List Int → List Rat)
    (ksd : List Rat → DriftOut) (model : Model) (d : FormData) (c : Counters) :
    (∀ e, validate d = .error e →
        (predictRoute scale ksd model d c).2.drift_count = c.drift_count) ∧
    (∀ v, validate d = .ok v →
        (predictRoute scale ksd model d c).2.drift_count =
          c.drift_count +
            (if (renderDrift (ksd (scale (buildFeatures v)))).is_drift then 1 else 0)) := by
  constructor
  · intro e he
    rw [predictRoute_validation_error scale ksd model d c e he]
  · intro v hv
    exact predictRoute_drift_count scale ksd model d c v hv

/-- C2 witness: a drifting request increments the drift counter from 7 by the
report-flag indicator. -/
theorem drift_counter_iff_report_is_drift_witness :
    validate egForm = .ok egValid ∧
    (predictRoute idScale ksdOne egModel egForm ⟨5, 7⟩).2.drift_count =
      (⟨5, 7⟩ : Counters).drift_count +
        (if (renderDrift (ksdOne (idScale (buildFeatures egValid)))).is_drift then 1 else 0) :=
  ⟨rfl, (drift_counter_iff_report_is_drift idScale ksdOne egModel egForm ⟨5, 7⟩).2 egValid rfl⟩

/-- C3: the prediction counter grows by exactly 1 on every `/predict` request
whose classifier returns a label, and a request that fails validation leaves
the counters unchanged and never reaches the detector or the model (the
outcome is identical under any detector and any model). -/
theorem prediction_counter_success_only (scale : List Int → List Rat)
    (ksd : List Rat → DriftOut) (model : Model) (d : FormData) (c : Counters) :
    (∀ v y, validate d = .ok v → model.predict (buildFeatures v) = .ok y →
        (predictRoute scale ksd model d c).2.prediction_count = c.prediction_count + 1) ∧
    (∀ e, validate d = .error e →
        predictRoute scale ksd model d c = (.err ("Error: " ++ e), c) ∧
        (∀ scale2 ksd2 model2,
          predictRoute scale ksd model d c = predictRoute scale2 ksd2 model2 d c)) := by
  constructor
  · intro v y hv hy
    rw [predictRoute_ok scale ksd model d c v y hv hy]
    simp
  · intro e he
    refine ⟨predictRoute_validation_error scale ksd model d c e he, ?_⟩
    intro scale2 ksd2 model2
    rw [predictRoute_validation_error scale ksd model d c e he,
        predictRoute_validation_error scale2 ksd2 model2 d c e he]

/-- C3 witness: a successful request bumps the prediction counter from 5 to 6;
the out-of-range Fare request returns the 400 template with counters intact. -/
theorem prediction_counter_success_only_witness :
    validate egForm = .ok egValid ∧
    egModel.predict (buildFeatures egValid) = .ok 1 ∧
    (predictRoute idScale ksdNone egModel egForm ⟨5, 7⟩).2.prediction_count =
      (⟨5, 7⟩ : Counters).prediction_count + 1 ∧
    validate formBadFare = .error "Fare out of valid range (0–10000)." ∧
    predictRoute idScale ksdNone egModel formBadFare ⟨5, 7⟩ =
      (.err ("Error: " ++ "Fare out of valid range (0–10000)."), ⟨5, 7⟩) :=
  ⟨rfl, rfl,
    (prediction_counter_success_only idScale ksdNone egModel egForm ⟨5, 7⟩).1
      egValid 1 rfl rfl,
    rfl,
    ((prediction_counter_success_only idScale ksdNone egModel formBadFare ⟨5, 7⟩).2
      _ rfl).1⟩

/-- C4: when the detector yields no p-values the request still reaches model
inference and returns the classification, with an empty drift table rendered
instead of an error. -/
theorem drift_best_effort_never_blocks (scale : List Int → List Rat)
    (ksd : List Rat → DriftOut) (model : Model) (d : FormData) (c : Counters)
    (v : Validated) (y : Int)
    (h1 : validate d = .ok v) (h2 : model.predict (buildFeatures v) = .ok y) :
    ∃ pr pl, (predictRoute scale ksd model d c).1 =
        .ok (if y = 1 then "SURVIVED" else "DID NOT SURVIVE") pr pl ∧
      ((ksd (scale (buildFeatures v))).p_val = none →
        pl.rows = [] ∧ pl.flagged_features = []) := by
  rw [predictRoute_ok scale ksd model d c v y h1 h2]
  refine ⟨_, _, rfl, fun hnone => ?_⟩
  simp [renderDrift, hnone]

/-- C4 witness: a detector returning neither flag nor p-values still yields
the SURVIVED prediction with an empty drift table. -/
theorem drift_best_effort_never_blocks_witness :
    validate egForm = .ok egValid ∧
    egModel.predict (buildFeatures egValid) = .ok 1 ∧
    (∃ pr pl, (predictRoute idScale ksdNone egModel egForm ⟨0, 0⟩).1 =
        .ok (if (1 : Int) = 1 then "SURVIVED" else "DID NOT SURVIVE") pr pl ∧
      ((ksdNone (idScale (buildFeatures egValid))).p_val = none →
        pl.rows = [] ∧ pl.flagged_features = [])) :=
  ⟨rfl, rfl,
    drift_best_effort_never_blocks idScale ksdNone egModel egForm ⟨0, 0⟩ egValid 1 rfl rfl⟩

/-- C5: validation accepts a form exactly when Age coerces with value in
[0, 120], Fare coerces with value in [0, 10000], Pclass coerces to one of
1, 2, 3, Familysize coerces with value ≥ 0, and the remaining integer fields
coerce; any rejected form yields the 400 error template carrying the cause,
with counters untouched (so neither drift testing nor inference ran). -/
theorem validation_bounds_characterisation (d : FormData) :
    ((∃ v, validate d = .ok v) ↔
      ((match pyIntFloat d.Age with | some a => 0 ≤ a ∧ a ≤ 120 | none => False) ∧
       (match pyIntFloat d.Fare with | some f => 0 ≤ f ∧ f ≤ 10000 | none => False) ∧
       (match pyInt d.Pclass with | some p => p = 1 ∨ p = 2 ∨ p = 3 | none => False) ∧
       (pyInt d.Sex).isSome ∧
       (pyInt d.Embarked).isSome ∧
       (match pyIntFloat d.Familysize with | some m => 0 ≤ m | none => False) ∧
       (pyInt d.Isalone).isSome ∧
       (pyInt d.HasCabin).isSome ∧
       (pyInt d.Title).isSome)) ∧
    (∀ e, validate d = .error e → ∀ scale ksd model c,
      predictRoute scale ksd model d c = (.err ("Error: " ++ e), c)) :=
  ⟨validate_ok_iff d,
   fun e he scale ksd model c => predictRoute_validation_error scale ksd model d c e he⟩

/-- C5 witness: the decimal-pointed Pclass form is rejected with its cause and
the handler returns the 400 template with unchanged counters. -/
theorem validation_bounds_characterisation_witness :
    validate formDotPclass = .error "invalid literal for int with base 10: 1.0" ∧
    predictRoute idScale ksdNone egModel formDotPclass ⟨1, 2⟩ =
      (.err ("Error: " ++ "invalid literal for int with base 10: 1.0"), ⟨1, 2⟩) :=
  ⟨rfl,
   (validation_bounds_characterisation formDotPclass).2 _ rfl idScale ksdNone egModel ⟨1, 2⟩⟩

/-- C6: in every built feature vector the two derived entries satisfy
`Pclass_Fare = Pclass * Fare` and `Age_Fare = Age * Fare` exactly, computed
from the validated fields; on the spec scenario (Age=29, Fare=72, Pclass=1)
they are 72 and 2088. -/
theorem derived_interaction_features :
    (∀ v : Validated,
      (buildFeatures v)[9]? = some (v.Pclass * v.Fare) ∧
      (buildFeatures v)[10]? = some (v.Age * v.Fare) ∧
      (buildFeatures v).length = FEATURE_NAMES.length) ∧
    validate egForm = .ok egValid ∧
    buildFeatures egValid = [29, 72, 1, 0, 0, 1, 1, 1, 0, 72, 2088] :=
  ⟨fun _ => ⟨rfl, rfl, rfl⟩, rfl, rfl⟩

/-- C7: reference-baseline construction succeeds iff the feature store returns
at least one entity and every entity's dictionary has every schema column;
on any baseline failure the startup sequence propagates the error and yields
no request handler, so the service never serves without a valid baseline. -/
theorem startup_baseline_fail_fast (ids : List String) (feat : String → String → Option Rat)
    (kstest : List Rat → List Rat) (scale : List Int → List Rat) (model : Model) :
    ((∃ t, fit_scaler_on_ref_data ids feat = .ok t) ↔
      (ids ≠ [] ∧ ∀ i ∈ ids, ∀ n ∈ FEATURE_NAMES, (feat i n).isSome = true)) ∧
    (∀ e, fit_scaler_on_ref_data ids feat = .error e →
      startService ids feat kstest scale model = .error e) := by
  constructor
  · unfold fit_scaler_on_ref_data
    split
    · simp_all [List.isEmpty_iff]
    · split
      · simp_all [List.isEmpty_iff, List.all_eq_true]
      · simp_all [List.isEmpty_iff, List.all_eq_true]
  · intro e he
    unfold startService
    rw [he]

/-- C7 witness: the empty store fails the baseline build and the service does
not start; a one-entity store with all columns present succeeds. -/
theorem startup_baseline_fail_fast_witness :
    fit_scaler_on_ref_data [] feat0 =
      .error "None of the FEATURE_NAMES columns are in the empty reference frame" ∧
    startService [] feat0 kstestConst idScale egModel =
      .error "None of the FEATURE_NAMES columns are in the empty reference frame" ∧
    (∃ t, fit_scaler_on_ref_data ["1"] featGood = .ok t) :=
  ⟨rfl,
   (startup_baseline_fail_fast [] feat0 kstestConst idScale egModel).2 _ rfl,
   (startup_baseline_fail_fast ["1"] featGood kstestConst idScale egModel).1.mpr
     ⟨by simp, fun i _ n _ => rfl⟩⟩

/-- C8: when `predict_proba` is absent, or invoking it raises, a request that
reaches inference still completes with the classification and no probability
field; when it succeeds, the reported probability is the positive-class
probability as a percentage formatted to two decimals (0.6321 renders as
"63.21"). -/
theorem probability_optional_and_resilient (scale : List Int → List Rat)
    (ksd : List Rat → DriftOut) (model : Model) (d : FormData) (c : Counters)
    (v : Validated) (y : Int)
    (h1 : validate d = .ok v) (h2 : model.predict (buildFeatures v) = .ok y) :
    (model.predict_proba = none →
      ∃ pl, (predictRoute scale ksd model d c).1 =
        .ok (if y = 1 then "SURVIVED" else "DID NOT SURVIVE") none pl) ∧
    (∀ f e, model.predict_proba = some f → f (buildFeatures v) = .error e →
      ∃ pl, (predictRoute scale ksd model d c).1 =
        .ok (if y = 1 then "SURVIVED" else "DID NOT SURVIVE") none pl) ∧
    (∀ f p0 p1, model.predict_proba = some f → f (buildFeatures v) = .ok (p0, p1) →
      ∃ pl, (predictRoute scale ksd model d c).1 =
        .ok (if y = 1 then "SURVIVED" else "DID NOT SURVIVE")
          (some (fmt2 (p1 * 100))) pl) ∧
    fmt2 ((6321 : Rat) / 10000 * 100) = "63.21" := by
  rw [predictRoute_ok scale ksd model d c v y h1 h2]
  refine ⟨?_, ?_, ?_, ?_⟩
  · intro hp
    refine ⟨renderDrift (ksd (scale (buildFeatures v))), ?_⟩
    simp [hp]
  · intro f e hp hf
    refine ⟨renderDrift (ksd (scale (buildFeatures v))), ?_⟩
    simp [hp, hf]
  · intro f p0 p1 hp hf
    refine ⟨renderDrift (ksd (scale (buildFeatures v))), ?_⟩
    simp [hp, hf]
  · have h : ((6321 : Rat) / 10000 * 100) = 6321 / 100 := by norm_num
    rw [fmt2, h]
    norm_num
    rfl

/-- C8 witness: a model whose `predict_proba` returns (0.36, 0.64) yields the
SURVIVED label with the positive-class percentage string. -/
theorem probability_optional_and_resilient_witness :
    validate egForm = .ok egValid ∧
    egModel.predict (buildFeatures egValid) = .ok 1 ∧
    egModel.predict_proba = some probaFn ∧
    probaFn (buildFeatures egValid) = .ok (9 / 25, 16 / 25) ∧
    (∃ pl, (predictRoute idScale ksdNone egModel egForm ⟨0, 0⟩).1 =
      .ok (if (1 : Int) = 1 then "SURVIVED" else "DID NOT SURVIVE")
        (some (fmt2 ((16 : Rat) / 25 * 100))) pl) :=
  ⟨rfl, rfl, rfl, rfl,
   (probability_optional_and_resilient idScale ksdNone egModel egForm ⟨0, 0⟩
      egValid 1 rfl rfl).2.2.1 probaFn (9 / 25) (16 / 25) rfl rfl⟩

/-- C9: the drift counter is incremented before inference runs — when the
detector reports drift and `model.predict` then raises, the request returns
the 400 template with no prediction payload, yet the drift counter has grown
by 1 while the prediction counter is unchanged. -/
theorem drift_counter_persists_on_inference_failure (scale : List Int → List Rat)
    (ksd : List Rat → DriftOut) (model : Model) (d : FormData) (c : Counters)
    (v : Validated) (e : String)
    (h1 : validate d = .ok v)
    (h2 : (ksd (scale (buildFeatures v))).is_drift = some 1)
    (h3 : model.predict (buildFeatures v) = .error e) :
    predictRoute scale ksd model d c =
      (.err ("Error: " ++ e),
       { prediction_count := c.prediction_count, drift_count := c.drift_count + 1 }) := by
  rw [predictRoute_inference_error scale ksd model d c v e h1 h3]
  simp [h2]

/-- C9 witness: a drifting request on the model whose `predict` raises "boom"
leaves counters (5, 7) at (5, 8) with the 400 template. -/
theorem drift_counter_persists_on_inference_failure_witness :
    validate egForm = .ok egValid ∧
    (ksdOne (idScale (buildFeatures egValid))).is_drift = some 1 ∧
    failModel.predict (buildFeatures egValid) = .error "boom" ∧
    predictRoute idScale ksdOne failModel egForm ⟨5, 7⟩ =
      (.err ("Error: " ++ "boom"), ⟨5, 8⟩) :=
  ⟨rfl, rfl, rfl,
   drift_counter_persists_on_inference_failure idScale ksdOne failModel egForm ⟨5, 7⟩
     egValid "boom" rfl rfl rfl⟩

/-- C10: coercion is asymmetric — Age/Fare/Familysize go through
`int(float(s))`, so the fractional "120.9" is accepted and truncated toward
zero to 120, while Pclass and the other flag fields go through `int(s)`, so
"1.0" is rejected with a 400 even though its value is an allowed class. -/
theorem coercion_asymmetry_examples :
    pyIntFloat "120.9" = some 120 ∧
    pyIntFloat "-0.9" = some 0 ∧
    pyInt "120.9" = none ∧
    pyInt "1.0" = none ∧
    validate formFracAge = .ok ⟨120, 72, 1, 0, 0, 1, 1, 1, 0⟩ ∧
    validate formDotPclass = .error "invalid literal for int with base 10: 1.0" ∧
    (∀ scale ksd model c, predictRoute scale ksd model formDotPclass c =
      (.err ("Error: " ++ "invalid literal for int with base 10: 1.0"), c)) :=
  ⟨rfl, rfl, rfl, rfl, rfl, rfl,
   fun scale ksd model c =>
     predictRoute_validation_error scale ksd model formDotPclass c _ rfl⟩

end TitanicApp
